import Mathlib

/-!
# adi-bot: session lifecycle, pairing authentication and error dispatch

A shallow embedding of

* `service/process_service_impl.go`: `Activate`, `handleQRCodeAuthentication`
  (with the body of the goroutine it starts), `Deactivate`, `CheckActivation`;
* `exception/error_handler.go`: `ErrorHandler` and its five helpers.

Go pointers to `UserWaStatus` are addresses into an explicit heap, so that the
identity of a session (the pointer handed back by `Activate`, the pointer
captured by the pairing goroutine) is visible.  Every call on an external
collaborator (mutex, WhatsApp client, SQL container, WebSocket hub, database,
QR renderer) is recorded, in program order, in a list of `Action`s returned
next to the new state.  Results of external calls that the code branches on
are inputs (`ActivateEnv`, `TaskEnv`).  A Go panic is `Except.error`.
-/

namespace AdiBot

/-! ## Data model -/

/-- A value of `time.Time` such as `time.Now()` returns: the calendar fields
that the location of the process gives to it, which `Time.Format` reads, and
the instant itself in nanoseconds since the epoch, which `Time.Before`
compares.  How a location maps instants to calendar fields is the business of
the zone database, so the two are independent inputs here. -/
structure Time where
  Year : Nat
  Month : Nat
  Day : Nat
  Hour : Nat
  Minute : Nat
  Second : Nat
  UnixNano : Int
deriving DecidableEq, Repr

/-- The struct `UserWaStatus`.  `WaClient` and `Container` are the identities
of the `*whatsmeow.Client` and `*sqlstore.Container` objects. -/
structure UserWaStatus where
  WaClient : Nat
  Container : Nat
  IsActive : Bool
  IsAuthenticated : Bool
  StartTime : Time
deriving DecidableEq, Repr

instance : Inhabited UserWaStatus := ⟨⟨0, 0, false, false, ⟨0, 0, 0, 0, 0, 0, 0⟩⟩⟩

/-- A value that `ErrorHandler` can recover: the four types it tests for by
type assertion, and everything else. -/
inductive ErrValue where
  | NotFoundError (Error : String)
  | ValidationErrors (errorText : String)
  | UnauthorizedError (Error : String)
  | ForbiddenError (Error : String)
  | other (v : String)
deriving DecidableEq, Repr

/-- The `Data` field of `model.WebResponse` (an `interface{}`): a string, a
`map[string]string` literal, or a recovered error value. -/
inductive Payload where
  | text (s : String)
  | fields (kv : List (String × String))
  | value (v : ErrValue)
deriving DecidableEq, Repr

/-- The struct `model.WebResponse`. -/
structure WebResponse where
  Code : Nat
  Status : String
  Data : Payload
deriving DecidableEq, Repr

/-- One call on an external collaborator, as the code issues it. -/
inductive Action where
  /-- The call `s.mu.Lock()`. -/
  | Lock
  /-- The call `s.mu.Unlock()`, deferred in the source. -/
  | Unlock
  /-- The call `app.GetWaClient(phone)`: a client and a container are constructed. -/
  | GetWaClient (phone : String) (client container : Nat)
  /-- The call `client.GetQRChannel(ctx)`. -/
  | GetQRChannel (client : Nat)
  /-- The call `client.Connect()`. -/
  | Connect (client : Nat)
  /-- The call `client.Disconnect()`. -/
  | Disconnect (client : Nat)
  /-- The call `container.Close()`. -/
  | ContainerClose (container : Nat)
  /-- The call `s.WebSocketHub.SendMessage(phone, msg)`. -/
  | SendMessage (phone : String) (msg : WebResponse)
  /-- The call `s.DB.Model(..).Where("phone = ?", phone).Updates(..)` of line 108. -/
  | DBUpdates (phone : String) (IsAuthenticated : Bool)
  /-- The call `db.Model(..).Where("phone = ?", phone).Update(column, v)` of line 155. -/
  | DBUpdate (phone : String) (column : String) (v : Bool)
  /-- The call `qrcode.WriteFile(code, qrcode.Medium, 256, path)`. -/
  | WriteFile (code : String) (path : String)
  /-- The statement `go func() ...`: the pairing goroutine for `phone` and `status` starts. -/
  | Go (phone : String) (status : Nat)
  /-- The call `close(stopCh)`. -/
  | CloseChan (stopCh : Nat)
deriving DecidableEq, Repr

/-- The mutable state the service works on: the heap of `UserWaStatus`
objects (a pointer is an index), the field `UserStatusMap` of
`ProcessServiceImpl`, and the package-level table `app.ActiveRoutines`
(phone to stop channel). -/
structure State where
  heap : List UserWaStatus
  UserStatusMap : String → Option Nat
  ActiveRoutines : String → Option Nat

/-- Read through a pointer.  The pointers the program holds are indices of
the heap; an index outside it reads as the zero value. -/
def State.deref (s : State) (p : Nat) : UserWaStatus :=
  (s.heap[p]?).getD default

/-- Assign one field through a pointer. -/
def State.modify (s : State) (p : Nat) (f : UserWaStatus → UserWaStatus) : State :=
  { s with heap := s.heap.set p (f (s.deref p)) }

/-- Map assignment `m[k] = v`. -/
def mapStore (m : String → Option Nat) (k : String) (v : Nat) : String → Option Nat :=
  fun x => if x = k then some v else m x

/-- Map deletion `delete(m, k)`. -/
def mapDelete (m : String → Option Nat) (k : String) : String → Option Nat :=
  fun x => if x = k then none else m x

/-- Modelled from the spec: `helper.PanicIfError(msg, err)` is not among the
sources; failures are "surfaced synchronously to the caller", so it panics
exactly when `err` is not nil and does nothing otherwise. -/
def PanicIfError (err : Option String) : Except String Unit :=
  match err with
  | some e => .error e
  | none => .ok ()

/-- The constructor `NewProcessService`: an empty `UserStatusMap`.  The table
`app.ActiveRoutines` belongs to another package and is taken as it is. -/
def NewProcessService (activeRoutines : String → Option Nat) : State :=
  { heap := [], UserStatusMap := fun _ => none, ActiveRoutines := activeRoutines }

/-! ## Pairing-code artifact path -/

/-- The helper `appendInt` of Go's `time` package for a non-negative `x`: the
decimal digits of `x`, padded with zeros on the left to `width`. -/
def appendInt (x width : Nat) : List Char :=
  if width = 2 ∧ x < 100 then
    [Nat.digitChar (x / 10), Nat.digitChar (x % 10)]
  else if width = 4 ∧ x < 10000 then
    [Nat.digitChar (x / 1000), Nat.digitChar (x / 100 % 10),
     Nat.digitChar (x / 10 % 10), Nat.digitChar (x % 10)]
  else
    List.replicate (width - (Nat.toDigits 10 x).length) '0' ++ Nat.toDigits 10 x

/-- The characters of `t.Format("20060102-150405")`. -/
def Time.formatChars (t : Time) : List Char :=
  appendInt t.Year 4 ++ appendInt t.Month 2 ++ appendInt t.Day 2 ++ ['-'] ++
    appendInt t.Hour 2 ++ appendInt t.Minute 2 ++ appendInt t.Second 2

/-- The string `t.Format("20060102-150405")`. -/
def Time.Format (t : Time) : String := String.mk t.formatChars

/-- The path `fmt.Sprintf("public/qr-%s-%s.png", now.Format("20060102-150405"), phone)`,
line 129. -/
def qrPath (now : Time) (phone : String) : String :=
  "public/qr-" ++ now.Format ++ "-" ++ phone ++ ".png"

/-- The calendar reading of an instant down to the second, most significant
field first: what the layout `20060102-150405` shows of it. -/
def Time.stamp (t : Time) : List Nat :=
  [t.Year, t.Month, t.Day, t.Hour, t.Minute, t.Second]

/-- The test `t.Before(u)`: the instant of `t` is earlier than that of `u`. -/
def Time.Before (t u : Time) : Prop := t.UnixNano < u.UnixNano

instance (t u : Time) : Decidable (t.Before u) := by
  unfold Time.Before; infer_instance

/-- A calendar reading with a four-digit year. -/
def Time.Valid (t : Time) : Prop :=
  t.Year < 10000 ∧ 1 ≤ t.Month ∧ t.Month ≤ 12 ∧ 1 ≤ t.Day ∧ t.Day ≤ 31 ∧
    t.Hour < 24 ∧ t.Minute < 60 ∧ t.Second < 60

instance (t : Time) : Decidable t.Valid := by
  unfold Time.Valid; infer_instance

/-! ## SessionRegistry operations -/

/-- What the environment answers during one call of `Activate`. -/
structure ActivateEnv where
  /-- The client returned by `app.GetWaClient(phone)` -/
  waClient : Nat
  /-- The container returned by `app.GetWaClient(phone)` -/
  container : Nat
  /-- Whether `status.WaClient.Store.ID != nil`. -/
  storeID : Bool
  /-- The reading of `time.Now()`. -/
  now : Time
  /-- The error of `GetQRChannel`, if any. -/
  qrChannelErr : Option String
  /-- The error of `Connect`, if any. -/
  connectErr : Option String
  /-- The error of the final `Updates`, if any. -/
  dbErr : Option String

/-- The method `handleQRCodeAuthentication`, lines 118 to 179, up to and including the
`go` statement.  It changes no state itself; the goroutine is `pairingTask`. -/
def handleQRCodeAuthentication (env : ActivateEnv) (s : State) (phone : String)
    (status : Nat) : Except String Unit × List Action :=
  let client := (s.deref status).WaClient
  match PanicIfError env.qrChannelErr with
  | .error e => (.error e, [.GetQRChannel client])
  | .ok _ =>
    match PanicIfError env.connectErr with
    | .error e => (.error e, [.GetQRChannel client, .Connect client])
    | .ok _ => (.ok (), [.GetQRChannel client, .Connect client, .Go phone status])

/-- Lines 108 to 114 of `Activate`: the store write and the return. -/
def activateFinish (env : ActivateEnv) (s : State) (phone : String) (status : Nat)
    (done : List Action) : State × Except String Nat × List Action :=
  let upd := Action.DBUpdates phone (s.deref status).IsAuthenticated
  match PanicIfError env.dbErr with
  | .error e => (s, .error e, done ++ [upd, .Unlock])
  | .ok _ => (s, .ok status, done ++ [upd, .Unlock])

/-- Lines 80 to 114 of `Activate`: no active session was found.  The
deferred `Unlock` closes the list of actions on every exit, a panic
included. -/
def activateNew (env : ActivateEnv) (s : State) (phone : String) :
    State × Except String Nat × List Action :=
  let status := s.heap.length
  let s1 : State :=
    { s with
      heap := s.heap ++ [⟨env.waClient, env.container, false, false, env.now⟩]
      UserStatusMap := mapStore s.UserStatusMap phone status }
  let s2 := s1.modify status (fun st => { st with IsAuthenticated := env.storeID })
  let s3 := s2.modify status (fun st => { st with IsActive := true })
  let client := (s3.deref status).WaClient
  let start : List Action := [.Lock, .GetWaClient phone env.waClient env.container]
  if !(s3.deref status).IsAuthenticated then
    match handleQRCodeAuthentication env s3 phone status with
    | (.error e, tr) => (s3, .error e, start ++ tr ++ [.Unlock])
    | (.ok _, tr) => activateFinish env s3 phone status (start ++ tr)
  else
    activateFinish env s3 phone status
      (start ++ [.Connect client,
        .SendMessage phone ⟨200, "success", .text "Connection Successful!"⟩])

/-- The method `ProcessServiceImpl.Activate`, lines 72 to 115.  Returns the new state,
the returned pointer (or the panic) and the actions performed. -/
def Activate (env : ActivateEnv) (s : State) (phone : String) :
    State × Except String Nat × List Action :=
  match s.UserStatusMap phone with
  | some status =>
    if (s.deref status).IsActive then (s, .ok status, [.Lock, .Unlock])
    else activateNew env s phone
  | none => activateNew env s phone

/-- The method `ProcessServiceImpl.Deactivate`, lines 182 to 195.  `closeErr` is the
error of `Container.Close()`, if any. -/
def Deactivate (closeErr : Option String) (s : State) (phone : String) :
    State × Except String Bool × List Action :=
  match s.UserStatusMap phone with
  | some status =>
    let s1 := s.modify status (fun st => { st with IsActive := false })
    let st := s1.deref status
    let tr : List Action :=
      [.Lock, .Disconnect st.WaClient, .ContainerClose st.Container, .Unlock]
    match PanicIfError closeErr with
    | .error e => (s1, .error e, tr)
    | .ok _ => (s1, .ok true, tr)
  | none => (s, .ok false, [.Lock, .Unlock])

/-- The method `ProcessServiceImpl.CheckActivation`, lines 197 to 206. -/
def CheckActivation (s : State) (phone : String) : State × Bool × List Action :=
  match s.UserStatusMap phone with
  | some status => (s, (s.deref status).IsActive, [.Lock, .Unlock])
  | none => (s, false, [.Lock, .Unlock])

/-! ## PairingAuthenticator: the goroutine of `handleQRCodeAuthentication` -/

/-- One item of the QR channel (`whatsmeow.QRChannelItem`). -/
structure QRChannelItem where
  Event : String
  Code : String
deriving DecidableEq, Repr

/-- What the environment answers while the goroutine handles one event. -/
structure TaskEnv where
  /-- The reading of `time.Now()`. -/
  now : Time
  /-- The error of `qrcode.WriteFile`, if any. -/
  writeFileErr : Option String
  /-- The error of `Container.Close()` inside `Deactivate`, if any. -/
  closeErr : Option String

/-- Whether the `for evt := range qrChan` loop goes on to the next event or
the goroutine has returned. -/
inductive Flow where
  | next
  | returned
deriving DecidableEq, Repr

/-- The body of the loop, lines 126 to 175, for one event.  `status` is the
pointer the goroutine captured. -/
def qrEvent (env : TaskEnv) (s : State) (phone : String) (status : Nat)
    (evt : QRChannelItem) : State × Except String Flow × List Action :=
  if evt.Event = "code" then
    let path := qrPath env.now phone
    match env.writeFileErr with
    | some _ => (s, .ok .next, [.WriteFile evt.Code path])
    | none =>
      (s, .ok .next,
        [.WriteFile evt.Code path,
         .SendMessage phone
           ⟨200, "success", .fields [("type", "authenticating"), ("qrPath", path)]⟩])
  else if evt.Event = "success" then
    let s1 := s.modify status (fun st => { st with IsAuthenticated := true })
    (s1, .ok .returned,
      [.Lock,
       .SendMessage phone ⟨200, "success", .fields [("type", "authenticated")]⟩,
       .DBUpdate phone "is_authenticated" true,
       .Unlock])
  else if evt.Event = "timeout" then
    let pre : List Action :=
      [.Disconnect (s.deref status).WaClient,
       .SendMessage phone ⟨408, "error", .fields [("type", "timeout")]⟩]
    match s.ActiveRoutines phone with
    | some stopCh =>
      match Deactivate env.closeErr s phone with
      | (s1, .error e, tr) => (s1, .error e, pre ++ tr)
      | (s1, .ok _, tr) =>
        ({ s1 with ActiveRoutines := mapDelete s1.ActiveRoutines phone }, .ok .returned,
          pre ++ tr ++ [.CloseChan stopCh])
    | none => (s, .ok .returned, pre)
  else
    (s, .ok .next, [])

/-- The goroutine on the events received so far, each with the answers of
the environment at that moment.  The result `Flow.next` means the loop is
waiting for a further event. -/
def pairingTask (phone : String) (status : Nat) :
    State → List (TaskEnv × QRChannelItem) → State × Except String Flow × List Action
  | s, [] => (s, .ok .next, [])
  | s, (env, evt) :: rest =>
    match qrEvent env s phone status evt with
    | (s1, .ok .next, tr) =>
      let r := pairingTask phone status s1 rest
      (r.1, r.2.1, tr ++ r.2.2)
    | (s1, out, tr) => (s1, out, tr)

/-- The messages handed to the WebSocket hub, each with its addressee, in
order. -/
def sent : List Action → List (String × WebResponse)
  | [] => []
  | .SendMessage p m :: rest => (p, m) :: sent rest
  | _ :: rest => sent rest

/-- The `type` entry of a notification. -/
def WebResponse.type (m : WebResponse) : Option String :=
  match m.Data with
  | .fields kv => kv.lookup "type"
  | _ => none

/-- How many client handles a run constructs. -/
def constructed : List Action → Nat
  | [] => 0
  | .GetWaClient _ _ _ :: rest => constructed rest + 1
  | _ :: rest => constructed rest

/-- The database writes of a run, in order. -/
def storeWrites : List Action → List Action
  | [] => []
  | .DBUpdates p v :: rest => .DBUpdates p v :: storeWrites rest
  | .DBUpdate p c v :: rest => .DBUpdate p c v :: storeWrites rest
  | _ :: rest => storeWrites rest

/-- Whether `Connect` is called while the mutex is held: scan the actions,
tracking the mutex. -/
def connectUnderLock : Bool → List Action → Bool
  | _, [] => false
  | _, .Lock :: rest => connectUnderLock true rest
  | _, .Unlock :: rest => connectUnderLock false rest
  | held, .Connect _ :: rest => held || connectUnderLock held rest
  | held, _ :: rest => connectUnderLock held rest

/-! ## ErrorHandler -/

/-- What has been written to the `http.ResponseWriter`. -/
structure ResponseWriter where
  header : List (String × String)
  body : List WebResponse
deriving DecidableEq, Repr

/-- The two statements each responder ends with:
`writer.Header().Set("Content-Type", "application/json")` and
`helper.WriteToResponseBody(writer, webResponse)`. -/
def writeJSON (writer : ResponseWriter) (resp : WebResponse) : ResponseWriter :=
  { header := writer.header.filter (fun h => h.1 ≠ "Content-Type") ++
      [("Content-Type", "application/json")],
    body := writer.body ++ [resp] }

/-- The function `notFoundError`, lines 54 to 70. -/
def notFoundError (writer : ResponseWriter) (err : ErrValue) : ResponseWriter × Bool :=
  match err with
  | .NotFoundError e => (writeJSON writer ⟨404, "NOT FOUND", .text e⟩, true)
  | _ => (writer, false)

/-- The function `validationErrors`, lines 36 to 52. -/
def validationErrors (writer : ResponseWriter) (err : ErrValue) : ResponseWriter × Bool :=
  match err with
  | .ValidationErrors e => (writeJSON writer ⟨400, "BAD REQUEST", .text e⟩, true)
  | _ => (writer, false)

/-- The function `notAuthorizedError`, lines 72 to 88: `false` after writing,
`true` otherwise. -/
def notAuthorizedError (writer : ResponseWriter) (err : ErrValue) : ResponseWriter × Bool :=
  match err with
  | .UnauthorizedError e => (writeJSON writer ⟨401, "UNAUTHORIZED", .text e⟩, false)
  | _ => (writer, true)

/-- The function `forbiddenError`, lines 90 to 106: `false` after writing,
`true` otherwise. -/
def forbiddenError (writer : ResponseWriter) (err : ErrValue) : ResponseWriter × Bool :=
  match err with
  | .ForbiddenError e => (writeJSON writer ⟨403, "FORBIDDEN", .text e⟩, false)
  | _ => (writer, true)

/-- The function `internalServerError`, lines 108 to 117. -/
def internalServerError (writer : ResponseWriter) (err : ErrValue) : ResponseWriter :=
  writeJSON writer ⟨500, "INTERNAL SERVER ERROR", .value err⟩

/-- The function `ErrorHandler`, lines 13 to 34. -/
def ErrorHandler (writer : ResponseWriter) (err : ErrValue) : ResponseWriter :=
  let r1 := notFoundError writer err
  if r1.2 then r1.1
  else
    let r2 := validationErrors r1.1 err
    if r2.2 then r2.1
    else
      let r3 := notAuthorizedError r2.1 err
      if r3.2 then r3.1
      else
        let r4 := forbiddenError r3.1 err
        if r4.2 then r4.1
        else internalServerError r4.1 err

/-! ## Concrete inputs -/

/-- The instant 9 March 2024, 07:05:01 UTC, read in the location UTC. -/
def sampleTime : Time := ⟨2024, 3, 9, 7, 5, 1, 1709967901000000000⟩

/-- Half a second after `sampleTime`, read in the location UTC: the same
second. -/
def sampleTimeLater : Time := ⟨2024, 3, 9, 7, 5, 1, 1709967901500000000⟩

/-- One second after `sampleTime`, read in the location UTC. -/
def sampleTimeNext : Time := ⟨2024, 3, 9, 7, 5, 2, 1709967902000000000⟩

/-- The instant 27 October 2024, 00:59:59 UTC, read in the location
Europe/Berlin: 02:59:59, the last second of summer time. -/
def beforeFallBack : Time := ⟨2024, 10, 27, 2, 59, 59, 1729990799000000000⟩

/-- One second after `beforeFallBack`, read in the location Europe/Berlin:
02:00:00, the clock having stepped back one hour. -/
def afterFallBack : Time := ⟨2024, 10, 27, 2, 0, 0, 1729990800000000000⟩

/-- A fresh registry with an empty `app.ActiveRoutines`. -/
def emptyState : State := NewProcessService (fun _ => none)

/-- A fresh registry in which `app.ActiveRoutines` holds stop channel 5 for
the phone 628. -/
def watchedState : State := NewProcessService (fun x => if x = "628" then some 5 else none)

/-- No stored credential, every external call succeeds. -/
def envPairing : ActivateEnv :=
  { waClient := 7, container := 8, storeID := false, now := sampleTime,
    qrChannelErr := none, connectErr := none, dbErr := none }

/-- A second activation: no stored credential, every external call succeeds. -/
def envPairingAgain : ActivateEnv :=
  { waClient := 9, container := 10, storeID := false, now := sampleTimeNext,
    qrChannelErr := none, connectErr := none, dbErr := none }

/-- A stored credential, every external call succeeds. -/
def envCredential : ActivateEnv :=
  { waClient := 7, container := 8, storeID := true, now := sampleTime,
    qrChannelErr := none, connectErr := none, dbErr := none }

/-- No stored credential, `GetQRChannel` fails. -/
def envQRFails : ActivateEnv :=
  { waClient := 7, container := 8, storeID := false, now := sampleTime,
    qrChannelErr := some "websocket is already connected", connectErr := none, dbErr := none }

/-- No stored credential, `Connect` fails. -/
def envConnectFails : ActivateEnv :=
  { waClient := 7, container := 8, storeID := false, now := sampleTime,
    qrChannelErr := none, connectErr := some "dial tcp: i/o timeout", dbErr := none }

/-- Environment of one goroutine step in which rendering and closing succeed. -/
def envStep : TaskEnv := { now := sampleTime, writeFileErr := none, closeErr := none }

/-- The event sequence code, code, success. -/
def eventsCodeCodeSuccess : List (TaskEnv × QRChannelItem) :=
  [(envStep, ⟨"code", "2@abc"⟩), (envStep, ⟨"code", "2@def"⟩), (envStep, ⟨"success", ""⟩)]

/-- The event sequence code, timeout. -/
def eventsCodeTimeout : List (TaskEnv × QRChannelItem) :=
  [(envStep, ⟨"code", "2@abc"⟩), (envStep, ⟨"timeout", ""⟩)]

/-! ## Heap and registry lemmas -/

theorem deref_modify_self (s : State) (p : Nat) (f : UserWaStatus → UserWaStatus)
    (h : p < s.heap.length) : (s.modify p f).deref p = f (s.deref p) := by
  simp [State.modify, State.deref, h]

theorem deref_modify_other (s : State) (p q : Nat) (f : UserWaStatus → UserWaStatus)
    (h : p ≠ q) : (s.modify p f).deref q = s.deref q := by
  simp [State.modify, State.deref, List.getElem?_set_ne h]

/-- A pointer behind which an active session is read is a valid one. -/
theorem lt_length_of_active (s : State) (p : Nat) (h : (s.deref p).IsActive = true) :
    p < s.heap.length := by
  by_contra hp
  have hnone : s.heap[p]? = none := List.getElem?_eq_none (by omega)
  simp [State.deref, hnone] at h

/-- The state in which `Activate` leaves the registry whenever it gets past
the early return, on every exit. -/
theorem activateNew_state (env : ActivateEnv) (s : State) (phone : String) :
    (activateNew env s phone).1 =
      { heap := s.heap ++ [⟨env.waClient, env.container, true, env.storeID, env.now⟩]
        UserStatusMap := mapStore s.UserStatusMap phone s.heap.length
        ActiveRoutines := s.ActiveRoutines } := by
  unfold activateNew
  simp only [State.modify, State.deref, handleQRCodeAuthentication, activateFinish, PanicIfError]
  cases env.storeID <;> cases env.qrChannelErr <;> cases env.connectErr <;>
    cases env.dbErr <;> simp

/-- The pointer `activateNew` returns, when it returns, is the fresh one. -/
theorem activateNew_result (env : ActivateEnv) (s : State) (phone : String) (r : Nat)
    (h : (activateNew env s phone).2.1 = .ok r) : r = s.heap.length := by
  unfold activateNew at h
  simp only [State.modify, State.deref, handleQRCodeAuthentication, activateFinish,
    PanicIfError] at h
  cases h1 : env.storeID <;> cases h2 : env.qrChannelErr <;> cases h3 : env.connectErr <;>
    cases h4 : env.dbErr <;> simp [h1, h2, h3, h4] at h <;> exact h.symm

/-- Past the early return exactly one handle is constructed, on every exit. -/
theorem activateNew_constructed (env : ActivateEnv) (s : State) (phone : String) :
    constructed (activateNew env s phone).2.2 = 1 := by
  unfold activateNew
  simp only [State.modify, State.deref, handleQRCodeAuthentication, activateFinish, PanicIfError]
  cases env.storeID <;> cases env.qrChannelErr <;> cases env.connectErr <;>
    cases env.dbErr <;> simp [constructed]

/-- After `activateNew` the map sends the phone to an active session. -/
theorem activateNew_active (env : ActivateEnv) (s : State) (phone : String) :
    (activateNew env s phone).1.UserStatusMap phone = some s.heap.length ∧
      ((activateNew env s phone).1.deref s.heap.length).IsActive = true ∧
      ((activateNew env s phone).1.deref s.heap.length).IsAuthenticated = env.storeID := by
  rw [activateNew_state]
  simp [mapStore, State.deref]

/-- The early return of `Activate`. -/
theorem Activate_of_active (env : ActivateEnv) (s : State) (phone : String) (p : Nat)
    (hmap : s.UserStatusMap phone = some p) (hact : (s.deref p).IsActive = true) :
    Activate env s phone = (s, .ok p, [.Lock, .Unlock]) := by
  simp [Activate, hmap, hact]

/-- Without an active session `Activate` is `activateNew`. -/
theorem Activate_of_inactive (env : ActivateEnv) (s : State) (phone : String)
    (h : (CheckActivation s phone).2.1 = false) :
    Activate env s phone = activateNew env s phone := by
  unfold CheckActivation at h
  unfold Activate
  cases hm : s.UserStatusMap phone with
  | none => rfl
  | some p => simp [hm] at h; simp [h]

/-- Whatever `Activate` does, afterwards the phone has an active session. -/
theorem Activate_post_active (env : ActivateEnv) (s : State) (phone : String) :
    ∃ p, (Activate env s phone).1.UserStatusMap phone = some p ∧
      ((Activate env s phone).1.deref p).IsActive = true := by
  unfold Activate
  cases hm : s.UserStatusMap phone with
  | none => exact ⟨_, (activateNew_active env s phone).1, (activateNew_active env s phone).2.1⟩
  | some p =>
    by_cases hact : (s.deref p).IsActive = true
    · simp only [hact, if_true]; exact ⟨p, hm, hact⟩
    · simp only [hact]
      exact ⟨_, (activateNew_active env s phone).1, (activateNew_active env s phone).2.1⟩

/-- When `Activate` returns, it returns the pointer the map holds for the
phone. -/
theorem Activate_result_in_map (env : ActivateEnv) (s : State) (phone : String) (r : Nat)
    (h : (Activate env s phone).2.1 = .ok r) :
    (Activate env s phone).1.UserStatusMap phone = some r ∧
      ((Activate env s phone).1.deref r).IsActive = true := by
  unfold Activate at h ⊢
  cases hm : s.UserStatusMap phone with
  | none =>
    simp only [hm] at h
    have := activateNew_result env s phone r h
    subst this
    exact ⟨(activateNew_active env s phone).1, (activateNew_active env s phone).2.1⟩
  | some p =>
    simp only [hm] at h ⊢
    by_cases hact : (s.deref p).IsActive = true
    · simp only [hact, if_true] at h ⊢
      have : p = r := by simpa using h
      subst this
      exact ⟨hm, hact⟩
    · simp only [hact] at h ⊢
      have := activateNew_result env s phone r h
      subst this
      exact ⟨(activateNew_active env s phone).1, (activateNew_active env s phone).2.1⟩

/-! ## C1: idempotence of Activate -/

/-- C1. On a phone whose session is active, `Activate` returns the pointer to
that very session, returns the state as it was (table, heap and so every
session field), and performs only the lock and unlock: no handle is
constructed, nothing is written to the database, nothing is sent to the hub.
And for two consecutive calls: when the first returns a session, the second
returns the same pointer and leaves the state alone, the two calls construct at
most one handle, and exactly one when the phone had no active session before
the first call. -/
theorem Activate_idempotent :
    (∀ (env : ActivateEnv) (s : State) (phone : String) (p : Nat),
      s.UserStatusMap phone = some p → (s.deref p).IsActive = true →
        Activate env s phone = (s, .ok p, [.Lock, .Unlock]) ∧
        constructed (Activate env s phone).2.2 = 0 ∧
        storeWrites (Activate env s phone).2.2 = [] ∧
        sent (Activate env s phone).2.2 = []) ∧
    (∀ (env1 env2 : ActivateEnv) (s : State) (phone : String) (r : Nat),
      (Activate env1 s phone).2.1 = .ok r →
        Activate env2 (Activate env1 s phone).1 phone =
          ((Activate env1 s phone).1, .ok r, [.Lock, .Unlock]) ∧
        constructed ((Activate env1 s phone).2.2 ++
          (Activate env2 (Activate env1 s phone).1 phone).2.2) ≤ 1 ∧
        ((CheckActivation s phone).2.1 = false →
          constructed ((Activate env1 s phone).2.2 ++
            (Activate env2 (Activate env1 s phone).1 phone).2.2) = 1)) := by
  refine ⟨?_, ?_⟩
  · intro env s phone p hmap hact
    rw [Activate_of_active env s phone p hmap hact]
    simp [constructed, storeWrites, sent]
  · intro env1 env2 s phone r h
    obtain ⟨hmap, hact⟩ := Activate_result_in_map env1 s phone r h
    have h2 := Activate_of_active env2 _ phone r hmap hact
    refine ⟨h2, ?_, ?_⟩
    · rw [h2]
      have hc : ∀ tr, constructed (tr ++ [Action.Lock, Action.Unlock]) = constructed tr := by
        intro tr
        induction tr with
        | nil => rfl
        | cons a t ih => cases a <;> simp [constructed, ih]
      show constructed ((Activate env1 s phone).2.2 ++ [Action.Lock, Action.Unlock]) ≤ 1
      rw [hc]
      unfold Activate
      cases hm : s.UserStatusMap phone with
      | none => simp [activateNew_constructed]
      | some p =>
        by_cases ha : (s.deref p).IsActive = true
        · simp [ha, constructed]
        · simp [ha, activateNew_constructed]
    · intro hin
      rw [h2]
      have hc : ∀ tr, constructed (tr ++ [Action.Lock, Action.Unlock]) = constructed tr := by
        intro tr
        induction tr with
        | nil => rfl
        | cons a t ih => cases a <;> simp [constructed, ih]
      show constructed ((Activate env1 s phone).2.2 ++ [Action.Lock, Action.Unlock]) = 1
      rw [hc, Activate_of_inactive env1 s phone hin, activateNew_constructed]

/-- Witness of C1 on the phone 628: first on the state an activation leaves,
then for two activations in a row on a fresh registry. -/
theorem Activate_idempotent_witness :
    ((Activate envPairing emptyState "628").1.UserStatusMap "628" = some 0 ∧
      (((Activate envPairing emptyState "628").1).deref 0).IsActive = true ∧
      Activate envPairingAgain (Activate envPairing emptyState "628").1 "628" =
        ((Activate envPairing emptyState "628").1, .ok 0, [.Lock, .Unlock])) ∧
    ((Activate envPairing emptyState "628").2.1 = .ok 0 ∧
      (CheckActivation emptyState "628").2.1 = false ∧
      constructed ((Activate envPairing emptyState "628").2.2 ++
        (Activate envPairingAgain (Activate envPairing emptyState "628").1 "628").2.2) = 1) :=
  ⟨⟨by decide, by decide,
      (Activate_idempotent.1 envPairingAgain (Activate envPairing emptyState "628").1 "628" 0
        (by decide) (by decide)).1⟩,
    ⟨rfl, by decide,
      (Activate_idempotent.2 envPairing envPairingAgain emptyState "628" 0 rfl).2.2
        (by decide)⟩⟩

/-! ## C7: CheckActivation over the lifecycle -/

/-- C7. On a registry as `NewProcessService` builds it `CheckActivation` is
false for every phone; when `Activate` returns, `CheckActivation` is true, and
after a following `Deactivate` (whether or not closing the container fails) it
is false again; `CheckActivation` returns the state it was given. -/
theorem CheckActivation_lifecycle :
    (∀ (ar : String → Option Nat) (phone : String),
      (CheckActivation (NewProcessService ar) phone).2.1 = false) ∧
    (∀ (env : ActivateEnv) (s : State) (phone : String) (r : Nat),
      (Activate env s phone).2.1 = .ok r →
        (CheckActivation (Activate env s phone).1 phone).2.1 = true ∧
        ∀ closeErr : Option String,
          (CheckActivation (Deactivate closeErr (Activate env s phone).1 phone).1 phone).2.1
            = false) ∧
    (∀ (s : State) (phone : String), (CheckActivation s phone).1 = s) := by
  refine ⟨?_, ?_, ?_⟩
  · intro ar phone
    rfl
  · intro env s phone r h
    obtain ⟨hmap, hact⟩ := Activate_result_in_map env s phone r h
    refine ⟨by simp [CheckActivation, hmap, hact], ?_⟩
    intro closeErr
    have hlt := lt_length_of_active _ r hact
    cases closeErr <;>
      simp [CheckActivation, Deactivate, hmap, PanicIfError, State.modify, State.deref, hlt]
  · intro s phone
    unfold CheckActivation
    cases s.UserStatusMap phone <;> rfl

/-- Witness of C7: activation of the phone 628 on a fresh registry. -/
theorem CheckActivation_lifecycle_witness :
    (Activate envPairing emptyState "628").2.1 = .ok 0 ∧
    (CheckActivation (Activate envPairing emptyState "628").1 "628").2.1 = true ∧
    (CheckActivation
      (Deactivate none (Activate envPairing emptyState "628").1 "628").1 "628").2.1 = false :=
  ⟨rfl,
    (CheckActivation_lifecycle.2.1 envPairing emptyState "628" 0 rfl).1,
    (CheckActivation_lifecycle.2.1 envPairing emptyState "628" 0 rfl).2 none⟩

/-! ## C8: Deactivate on an unknown phone -/

/-- C8. For a phone the map has no entry for, `Deactivate` returns false and
the state it was given, and performs only the lock and unlock: nothing is sent
to the hub, nothing written to the database, nothing disconnected or closed. -/
theorem Deactivate_unknown_noop (closeErr : Option String) (s : State) (phone : String)
    (h : s.UserStatusMap phone = none) :
    Deactivate closeErr s phone = (s, .ok false, [.Lock, .Unlock]) ∧
    sent (Deactivate closeErr s phone).2.2 = [] ∧
    storeWrites (Deactivate closeErr s phone).2.2 = [] ∧
    (∀ c, Action.Disconnect c ∉ (Deactivate closeErr s phone).2.2) ∧
    (∀ c, Action.ContainerClose c ∉ (Deactivate closeErr s phone).2.2) ∧
    (∀ c, Action.CloseChan c ∉ (Deactivate closeErr s phone).2.2) := by
  have hd : Deactivate closeErr s phone = (s, .ok false, [.Lock, .Unlock]) := by
    simp [Deactivate, h]
  rw [hd]
  simp [sent, storeWrites]

/-- Witness of C8: the phone 628 on a fresh registry. -/
theorem Deactivate_unknown_noop_witness :
    emptyState.UserStatusMap "628" = none ∧
    Deactivate none emptyState "628" = (emptyState, .ok false, [.Lock, .Unlock]) :=
  ⟨rfl, (Deactivate_unknown_noop none emptyState "628" rfl).1⟩

/-! ## C6: Deactivate on an existing session -/

/-- C6 fails on the code: with a stop channel registered for the phone 628 in
`app.ActiveRoutines`, `Deactivate` returns true and the entry is still
there. -/
theorem Deactivate_keeps_watchdog :
    (Activate envPairing watchedState "628").1.UserStatusMap "628" = some 0 ∧
    (Activate envPairing watchedState "628").1.ActiveRoutines "628" = some 5 ∧
    (Deactivate none (Activate envPairing watchedState "628").1 "628").2.1 = .ok true ∧
    (Deactivate none (Activate envPairing watchedState "628").1 "628").1.ActiveRoutines "628"
      = some 5 ∧
    (∀ c, Action.CloseChan c ∉
      (Deactivate none (Activate envPairing watchedState "628").1 "628").2.2) := by
  refine ⟨by decide, by decide, rfl, by decide, ?_⟩
  intro c
  have htr : (Deactivate none (Activate envPairing watchedState "628").1 "628").2.2 =
      [.Lock, .Disconnect 7, .ContainerClose 8, .Unlock] := by decide
  rw [htr]
  simp

/-- C6 as amended. For a phone with a session in the registry, `Deactivate`
sets the session's active flag to false and leaves its other fields, calls
`Disconnect` on its client and `Close` on its container, and returns true when
`Close` succeeds (it panics with the error of `Close` otherwise); the map and
the table `app.ActiveRoutines` are left as they were. -/
theorem Deactivate_existing (closeErr : Option String) (s : State) (phone : String) (p : Nat)
    (hmap : s.UserStatusMap phone = some p) (hp : p < s.heap.length) :
    ((Deactivate closeErr s phone).1.deref p) = { s.deref p with IsActive := false } ∧
    (Deactivate closeErr s phone).2.2 =
      [.Lock, .Disconnect (s.deref p).WaClient, .ContainerClose (s.deref p).Container,
       .Unlock] ∧
    (closeErr = none → (Deactivate closeErr s phone).2.1 = .ok true) ∧
    (∀ e, closeErr = some e → (Deactivate closeErr s phone).2.1 = .error e) ∧
    (Deactivate closeErr s phone).1.UserStatusMap = s.UserStatusMap ∧
    (Deactivate closeErr s phone).1.ActiveRoutines = s.ActiveRoutines := by
  cases closeErr <;>
    simp [Deactivate, hmap, PanicIfError, State.modify, State.deref, hp]

/-- Witness of C6 as amended: the session of the phone 628 after activation. -/
theorem Deactivate_existing_witness :
    (Activate envPairing watchedState "628").1.UserStatusMap "628" = some 0 ∧
    (Deactivate none (Activate envPairing watchedState "628").1 "628").2.2 =
      [.Lock, .Disconnect 7, .ContainerClose 8, .Unlock] :=
  ⟨by decide,
    (Deactivate_existing none (Activate envPairing watchedState "628").1 "628" 0
      (by decide) (by decide)).2.1⟩

/-! ## The actions of Activate past the early return -/

/-- The actions on the path with a stored credential. -/
theorem activateNew_actions_credential (env : ActivateEnv) (s : State) (phone : String)
    (hc : env.storeID = true) :
    (activateNew env s phone).2.2 =
      [.Lock, .GetWaClient phone env.waClient env.container, .Connect env.waClient,
       .SendMessage phone ⟨200, "success", .text "Connection Successful!"⟩,
       .DBUpdates phone true, .Unlock] := by
  unfold activateNew
  simp only [State.modify, State.deref, handleQRCodeAuthentication, activateFinish, PanicIfError]
  cases env.dbErr <;> simp [hc]

/-- The result and the actions on the pairing path when `GetQRChannel`
fails. -/
theorem activateNew_qr_fails (env : ActivateEnv) (s : State) (phone : String) (e : String)
    (hc : env.storeID = false) (hq : env.qrChannelErr = some e) :
    (activateNew env s phone).2 =
      (.error e,
        [.Lock, .GetWaClient phone env.waClient env.container, .GetQRChannel env.waClient,
         .Unlock]) := by
  unfold activateNew
  simp only [State.modify, State.deref, handleQRCodeAuthentication, activateFinish, PanicIfError]
  simp [hc, hq]

/-- The result and the actions on the pairing path when `Connect` fails. -/
theorem activateNew_connect_fails (env : ActivateEnv) (s : State) (phone : String)
    (e : String) (hc : env.storeID = false) (hq : env.qrChannelErr = none)
    (hn : env.connectErr = some e) :
    (activateNew env s phone).2 =
      (.error e,
        [.Lock, .GetWaClient phone env.waClient env.container, .GetQRChannel env.waClient,
         .Connect env.waClient, .Unlock]) := by
  unfold activateNew
  simp only [State.modify, State.deref, handleQRCodeAuthentication, activateFinish, PanicIfError]
  simp [hc, hq, hn]

/-- The actions on the pairing path when the channel opens and `Connect`
succeeds. -/
theorem activateNew_actions_pairing (env : ActivateEnv) (s : State) (phone : String)
    (hc : env.storeID = false) (hq : env.qrChannelErr = none) (hn : env.connectErr = none) :
    (activateNew env s phone).2.2 =
      [.Lock, .GetWaClient phone env.waClient env.container, .GetQRChannel env.waClient,
       .Connect env.waClient, .Go phone s.heap.length, .DBUpdates phone false, .Unlock] := by
  unfold activateNew
  simp only [State.modify, State.deref, handleQRCodeAuthentication, activateFinish, PanicIfError]
  cases env.dbErr <;> simp [hc, hq, hn]

/-! ## C2: foreground failure -/

/-- C2 fails on the code: on a fresh registry, when `GetQRChannel` fails (and
likewise when `Connect` fails) `Activate` panics, and afterwards
`CheckActivation` is true for the phone and a further `Activate` returns the
session left behind through the early return. -/
theorem Activate_failure_leaves_session_active :
    (CheckActivation emptyState "628").2.1 = false ∧
    (Activate envQRFails emptyState "628").2.1 = .error "websocket is already connected" ∧
    (CheckActivation (Activate envQRFails emptyState "628").1 "628").2.1 = true ∧
    (Activate envPairingAgain (Activate envQRFails emptyState "628").1 "628").2 =
      (.ok 0, [.Lock, .Unlock]) ∧
    (Activate envConnectFails emptyState "628").2.1 = .error "dial tcp: i/o timeout" ∧
    (CheckActivation (Activate envConnectFails emptyState "628").1 "628").2.1 = true ∧
    (Activate envPairingAgain (Activate envConnectFails emptyState "628").1 "628").2 =
      (.ok 0, [.Lock, .Unlock]) :=
  ⟨by decide, rfl, by decide, rfl, rfl, by decide, rfl⟩

/-- C2 as amended. For a phone with no active session and no stored
credential, when `GetQRChannel` fails, or it succeeds and `Connect` fails,
`Activate` panics with that error; it has written nothing to the database,
sent nothing to the hub and started no goroutine; the session it inserted stays
in the registry with the active flag true, so `CheckActivation` is true and a
further `Activate` returns that session through the early return. -/
theorem Activate_foreground_failure (env : ActivateEnv) (s : State) (phone : String)
    (e : String) (hin : (CheckActivation s phone).2.1 = false) (hc : env.storeID = false)
    (hfail : env.qrChannelErr = some e ∨ (env.qrChannelErr = none ∧ env.connectErr = some e)) :
    (Activate env s phone).2.1 = .error e ∧
    storeWrites (Activate env s phone).2.2 = [] ∧
    sent (Activate env s phone).2.2 = [] ∧
    (∀ q st, Action.Go q st ∉ (Activate env s phone).2.2) ∧
    (CheckActivation (Activate env s phone).1 phone).2.1 = true ∧
    (∀ env2 : ActivateEnv,
      Activate env2 (Activate env s phone).1 phone =
        ((Activate env s phone).1, .ok s.heap.length, [.Lock, .Unlock])) := by
  have hA := Activate_of_inactive env s phone hin
  obtain ⟨hmap, hact, -⟩ := activateNew_active env s phone
  have hres : (activateNew env s phone).2.1 = .error e ∧
      storeWrites (activateNew env s phone).2.2 = [] ∧
      sent (activateNew env s phone).2.2 = [] ∧
      (∀ q st, Action.Go q st ∉ (activateNew env s phone).2.2) := by
    rcases hfail with hq | ⟨hq, hn⟩
    · have h2 := activateNew_qr_fails env s phone e hc hq
      rw [Prod.ext_iff] at h2
      rw [h2.1, h2.2]
      simp [storeWrites, sent]
    · have h2 := activateNew_connect_fails env s phone e hc hq hn
      rw [Prod.ext_iff] at h2
      rw [h2.1, h2.2]
      simp [storeWrites, sent]
  rw [hA]
  refine ⟨hres.1, hres.2.1, hres.2.2.1, hres.2.2.2, ?_, ?_⟩
  · simp [CheckActivation, hmap, hact]
  · intro env2
    exact Activate_of_active env2 _ phone _ hmap hact

/-- Witness of C2 as amended: `GetQRChannel` fails for the phone 628 on a
fresh registry. -/
theorem Activate_foreground_failure_witness :
    (CheckActivation emptyState "628").2.1 = false ∧
    envQRFails.qrChannelErr = some "websocket is already connected" ∧
    (Activate envQRFails emptyState "628").2.1 = .error "websocket is already connected" :=
  ⟨by decide, rfl,
    (Activate_foreground_failure envQRFails emptyState "628" "websocket is already connected"
      (by decide) rfl (Or.inl rfl)).1⟩

/-! ## C3: the lock and the connect -/

/-- C3 fails on the code: on a fresh registry, on the pairing path and on the
path with a stored credential, `Connect` is called after `Lock` and before
`Unlock`. -/
theorem Activate_connects_under_lock :
    (Activate envPairing emptyState "628").2.2 =
      [.Lock, .GetWaClient "628" 7 8, .GetQRChannel 7, .Connect 7, .Go "628" 0,
       .DBUpdates "628" false, .Unlock] ∧
    connectUnderLock false (Activate envPairing emptyState "628").2.2 = true ∧
    (Activate envCredential emptyState "628").2.2 =
      [.Lock, .GetWaClient "628" 7 8, .Connect 7,
       .SendMessage "628" ⟨200, "success", .text "Connection Successful!"⟩,
       .DBUpdates "628" true, .Unlock] ∧
    connectUnderLock false (Activate envCredential emptyState "628").2.2 = true :=
  ⟨by decide, by decide, by decide, by decide⟩

/-- C3 as amended. The mutex is held for the whole of `Activate`, the
connect included: for a phone with no active session, on the path with a
stored credential and on the pairing path once `GetQRChannel` has succeeded,
the actions of `Activate` begin with `Lock`, end with `Unlock`, contain no
other `Lock` or `Unlock`, and `Connect` on the new client lies between the
two. -/
theorem Activate_lock_spans_connect (env : ActivateEnv) (s : State) (phone : String)
    (hin : (CheckActivation s phone).2.1 = false)
    (hreach : env.storeID = true ∨ env.qrChannelErr = none) :
    (Activate env s phone).2.2.head? = some Action.Lock ∧
    (Activate env s phone).2.2.getLast? = some Action.Unlock ∧
    (Activate env s phone).2.2.count Action.Lock = 1 ∧
    (Activate env s phone).2.2.count Action.Unlock = 1 ∧
    Action.Connect env.waClient ∈ (Activate env s phone).2.2 ∧
    connectUnderLock false (Activate env s phone).2.2 = true := by
  rw [Activate_of_inactive env s phone hin]
  cases hc : env.storeID with
  | true =>
    rw [activateNew_actions_credential env s phone hc]
    simp [connectUnderLock]
  | false =>
    have hq : env.qrChannelErr = none := by
      rcases hreach with h | h
      · rw [hc] at h; exact absurd h (by decide)
      · exact h
    cases hn : env.connectErr with
    | none =>
      rw [activateNew_actions_pairing env s phone hc hq hn]
      simp [connectUnderLock]
    | some e =>
      have h2 := activateNew_connect_fails env s phone e hc hq hn
      rw [Prod.ext_iff] at h2
      rw [h2.2]
      simp [connectUnderLock]

/-- Witness of C3 as amended: the pairing path for the phone 628 on a fresh
registry. -/
theorem Activate_lock_spans_connect_witness :
    (CheckActivation emptyState "628").2.1 = false ∧
    connectUnderLock false (Activate envPairing emptyState "628").2.2 = true :=
  ⟨by decide,
    (Activate_lock_spans_connect envPairing emptyState "628" (by decide)
      (Or.inr rfl)).2.2.2.2.2⟩

/-! ## C10: ErrorHandler -/

/-- C10 on the code: `ErrorHandler` writes one body with code 404 for a
`NotFoundError`, 400 for `ValidationErrors` and 401 for an `UnauthorizedError`;
for a `ForbiddenError` and for every other value it returns with nothing
written, because `notAuthorizedError` answers true for every value it does not
handle. -/
theorem ErrorHandler_responses (writer : ResponseWriter) (e : String) :
    (ErrorHandler writer (.NotFoundError e)).body =
      writer.body ++ [⟨404, "NOT FOUND", .text e⟩] ∧
    (ErrorHandler writer (.ValidationErrors e)).body =
      writer.body ++ [⟨400, "BAD REQUEST", .text e⟩] ∧
    (ErrorHandler writer (.UnauthorizedError e)).body =
      writer.body ++ [⟨401, "UNAUTHORIZED", .text e⟩] ∧
    ErrorHandler writer (.ForbiddenError e) = writer ∧
    ErrorHandler writer (.other e) = writer :=
  ⟨rfl, rfl, rfl, rfl, rfl⟩

/-! ## C4: the pairing goroutine on code events followed by success -/

theorem sent_append (a b : List Action) : sent (a ++ b) = sent a ++ sent b := by
  induction a with
  | nil => rfl
  | cons x t ih => cases x <;> simp [sent, ih]

theorem storeWrites_append (a b : List Action) :
    storeWrites (a ++ b) = storeWrites a ++ storeWrites b := by
  induction a with
  | nil => rfl
  | cons x t ih => cases x <;> simp [storeWrites, ih]

/-- A `code` event whose image is written: the state stays, the loop goes on,
the image is written and one notification is sent. -/
theorem qrEvent_code (env : TaskEnv) (s : State) (phone : String) (status : Nat)
    (evt : QRChannelItem) (he : evt.Event = "code") (hw : env.writeFileErr = none) :
    qrEvent env s phone status evt =
      (s, .ok .next,
        [.WriteFile evt.Code (qrPath env.now phone),
         .SendMessage phone
           ⟨200, "success",
            .fields [("type", "authenticating"), ("qrPath", qrPath env.now phone)]⟩]) := by
  simp [qrEvent, he, hw]

/-- A `success` event. -/
theorem qrEvent_success (env : TaskEnv) (s : State) (phone : String) (status : Nat)
    (evt : QRChannelItem) (he : evt.Event = "success") :
    qrEvent env s phone status evt =
      (s.modify status (fun st => { st with IsAuthenticated := true }), .ok .returned,
        [.Lock,
         .SendMessage phone ⟨200, "success", .fields [("type", "authenticated")]⟩,
         .DBUpdate phone "is_authenticated" true,
         .Unlock]) := by
  simp [qrEvent, he]

/-- The goroutine runs through a block of `code` events whose images are all
written, leaving the state as it was, and goes on with the rest. -/
theorem pairingTask_codes (phone : String) (status : Nat) (s : State)
    (codes rest : List (TaskEnv × QRChannelItem))
    (hcodes : ∀ x ∈ codes, x.2.Event = "code" ∧ x.1.writeFileErr = none) :
    (pairingTask phone status s (codes ++ rest)).1 = (pairingTask phone status s rest).1 ∧
    (pairingTask phone status s (codes ++ rest)).2.1 =
      (pairingTask phone status s rest).2.1 ∧
    sent (pairingTask phone status s (codes ++ rest)).2.2 =
      codes.map (fun x => (phone, (⟨200, "success",
        .fields [("type", "authenticating"), ("qrPath", qrPath x.1.now phone)]⟩ : WebResponse)))
      ++ sent (pairingTask phone status s rest).2.2 ∧
    storeWrites (pairingTask phone status s (codes ++ rest)).2.2 =
      storeWrites (pairingTask phone status s rest).2.2 := by
  induction codes with
  | nil => simp
  | cons x t ih =>
    obtain ⟨env, evt⟩ := x
    have hx := hcodes (env, evt) (List.mem_cons_self _ _)
    have ih2 := ih (fun y hy => hcodes y (List.mem_cons_of_mem _ hy))
    have hq := qrEvent_code env s phone status evt hx.1 hx.2
    simp only [List.cons_append, pairingTask, hq, List.map_cons]
    refine ⟨ih2.1, ih2.2.1, ?_, ?_⟩
    · simp [sent, ih2.2.2.1]
    · simp [storeWrites, ih2.2.2.2]

/-- C4. For every n and every valid session pointer whose session is not
authenticated: when the goroutine receives n `code` events whose images are
all written, then `success`, it returns; the hub has been handed, for that
phone and nobody else, n messages of type "authenticating" in the order of the
events (each with the path of its image) and then one of type "authenticated";
after each of the first k events, k at most n, the session's authenticated
flag is false, and after the whole sequence it is true; the one database write
sets `is_authenticated` to true for the phone. -/
theorem pairing_success_path (n : Nat) (s : State) (phone : String) (status : Nat)
    (codes : List (TaskEnv × QRChannelItem)) (last : TaskEnv) (payload : String)
    (hlen : codes.length = n)
    (hcodes : ∀ x ∈ codes, x.2.Event = "code" ∧ x.1.writeFileErr = none)
    (hp : status < s.heap.length) (hun : (s.deref status).IsAuthenticated = false) :
    (pairingTask phone status s (codes ++ [(last, ⟨"success", payload⟩)])).2.1
      = .ok .returned ∧
    sent (pairingTask phone status s (codes ++ [(last, ⟨"success", payload⟩)])).2.2 =
      codes.map (fun x => (phone, (⟨200, "success",
        .fields [("type", "authenticating"), ("qrPath", qrPath x.1.now phone)]⟩ : WebResponse)))
      ++ [(phone, ⟨200, "success", .fields [("type", "authenticated")]⟩)] ∧
    (sent (pairingTask phone status s (codes ++ [(last, ⟨"success", payload⟩)])).2.2).map
        (fun m => (m.1, m.2.type)) =
      List.replicate n (phone, some "authenticating") ++ [(phone, some "authenticated")] ∧
    (∀ k, k ≤ n →
      ((pairingTask phone status s
        (List.take k (codes ++ [(last, ⟨"success", payload⟩)]))).1.deref status).IsAuthenticated
        = false) ∧
    ((pairingTask phone status s
      (codes ++ [(last, ⟨"success", payload⟩)])).1.deref status).IsAuthenticated = true ∧
    storeWrites (pairingTask phone status s (codes ++ [(last, ⟨"success", payload⟩)])).2.2 =
      [.DBUpdate phone "is_authenticated" true] := by
  have hlast : pairingTask phone status s [(last, ⟨"success", payload⟩)] =
      (s.modify status (fun st => { st with IsAuthenticated := true }), .ok .returned,
        [.Lock,
         .SendMessage phone ⟨200, "success", .fields [("type", "authenticated")]⟩,
         .DBUpdate phone "is_authenticated" true,
         .Unlock]) := by
    simp [pairingTask, qrEvent_success last s phone status ⟨"success", payload⟩ rfl]
  obtain ⟨h1, h2, h3, h4⟩ := pairingTask_codes phone status s codes
    [(last, ⟨"success", payload⟩)] hcodes
  have hsent : sent (pairingTask phone status s (codes ++ [(last, ⟨"success", payload⟩)])).2.2 =
      codes.map (fun x => (phone, (⟨200, "success",
        .fields [("type", "authenticating"), ("qrPath", qrPath x.1.now phone)]⟩ : WebResponse)))
      ++ [(phone, ⟨200, "success", .fields [("type", "authenticated")]⟩)] := by
    rw [h3, hlast]; simp [sent]
  refine ⟨?_, hsent, ?_, ?_, ?_, ?_⟩
  · rw [h2, hlast]
  · rw [hsent, ← hlen]
    simp [WebResponse.type, List.lookup, Function.comp_def]
  · intro k hk
    have htake : List.take k (codes ++ [(last, (⟨"success", payload⟩ : QRChannelItem))])
        = codes.take k ++ [] := by
      rw [List.take_append_of_le_length (by omega)]; simp
    rw [htake]
    have hpre := pairingTask_codes phone status s (codes.take k) []
      (fun x hx => hcodes x (List.mem_of_mem_take hx))
    rw [hpre.1]
    simpa [pairingTask] using hun
  · rw [h1, hlast]
    rw [deref_modify_self s status _ hp]
  · rw [h4, hlast]
    simp [storeWrites]

/-- Witness of C4: the events code, code, success on the session of the phone
628 just activated. -/
theorem pairing_success_path_witness :
    (sent (pairingTask "628" 0 (Activate envPairing emptyState "628").1
        eventsCodeCodeSuccess).2.2).map (fun m => (m.1, m.2.type)) =
      [("628", some "authenticating"), ("628", some "authenticating"),
       ("628", some "authenticated")] :=
  (pairing_success_path 2 (Activate envPairing emptyState "628").1 "628" 0
    [(envStep, ⟨"code", "2@abc"⟩), (envStep, ⟨"code", "2@def"⟩)] envStep ""
    rfl (by decide) (by decide) (by decide)).2.2.1

/-! ## C5: a further Activate after code, timeout -/

/-- C5 fails on the code: on a fresh registry with no stop channel registered
for the phone 628, after activation and the events code, timeout, the session
is still active and a further `Activate` returns it through the early return,
constructing no handle and opening no event channel. -/
theorem timeout_without_watchdog_keeps_session :
    (Activate envPairing emptyState "628").2.1 = .ok 0 ∧
    (Activate envPairing emptyState "628").1.ActiveRoutines "628" = none ∧
    (pairingTask "628" 0 (Activate envPairing emptyState "628").1 eventsCodeTimeout).2.1
      = .ok .returned ∧
    (Activate envPairingAgain
      (pairingTask "628" 0 (Activate envPairing emptyState "628").1 eventsCodeTimeout).1
      "628").2 = (.ok 0, [.Lock, .Unlock]) :=
  ⟨rfl, by decide, rfl, rfl⟩

/-- C5 as amended. Let the goroutine of an active session of the phone handle
`code` and then `timeout`. When `app.ActiveRoutines` holds a stop channel for
the phone, a further `Activate` without a stored credential does not return
the old session: it constructs a handle and calls `GetQRChannel` on it, and
when the channel opens and `Connect` succeeds it starts a goroutine for a new
session pointer. When `app.ActiveRoutines` holds none, the session stays
active and the further `Activate` returns it through the early return. -/
theorem Activate_after_timeout (s : State) (phone : String) (r : Nat) (e1 e2 : TaskEnv)
    (code payload : String) (env2 : ActivateEnv)
    (hmap : s.UserStatusMap phone = some r) (hact : (s.deref r).IsActive = true)
    (hc : env2.storeID = false) :
    (∀ stopCh, s.ActiveRoutines phone = some stopCh →
      (Activate env2
        (pairingTask phone r s [(e1, ⟨"code", code⟩), (e2, ⟨"timeout", payload⟩)]).1
        phone).2.1 ≠ .ok r ∧
      constructed (Activate env2
        (pairingTask phone r s [(e1, ⟨"code", code⟩), (e2, ⟨"timeout", payload⟩)]).1
        phone).2.2 = 1 ∧
      Action.GetQRChannel env2.waClient ∈ (Activate env2
        (pairingTask phone r s [(e1, ⟨"code", code⟩), (e2, ⟨"timeout", payload⟩)]).1
        phone).2.2 ∧
      (env2.qrChannelErr = none → env2.connectErr = none →
        Action.Go phone s.heap.length ∈ (Activate env2
          (pairingTask phone r s [(e1, ⟨"code", code⟩), (e2, ⟨"timeout", payload⟩)]).1
          phone).2.2)) ∧
    (s.ActiveRoutines phone = none →
      Activate env2
        (pairingTask phone r s [(e1, ⟨"code", code⟩), (e2, ⟨"timeout", payload⟩)]).1 phone =
      (s, .ok r, [.Lock, .Unlock])) := by
  have hlt := lt_length_of_active s r hact
  have hcode : ∀ rest, pairingTask phone r s ((e1, ⟨"code", code⟩) :: rest) =
      ((pairingTask phone r s rest).1, (pairingTask phone r s rest).2.1,
        (qrEvent e1 s phone r ⟨"code", code⟩).2.2 ++ (pairingTask phone r s rest).2.2) := by
    intro rest
    cases hw : e1.writeFileErr <;> simp [pairingTask, qrEvent, hw]
  refine ⟨?_, ?_⟩
  · intro stopCh hch
    have hstate : ∃ s2 : State,
        (pairingTask phone r s [(e1, ⟨"code", code⟩), (e2, ⟨"timeout", payload⟩)]).1 = s2 ∧
        s2.heap.length = s.heap.length ∧ s2.UserStatusMap = s.UserStatusMap ∧
        (s2.deref r).IsActive = false := by
      rw [hcode]
      refine ⟨_, rfl, ?_⟩
      cases hcl : e2.closeErr <;>
        simp [pairingTask, qrEvent, hch, Deactivate, hmap, PanicIfError, hcl, State.modify,
          State.deref, hlt]
    obtain ⟨s2, hs2, hlen, hm2, hin2⟩ := hstate
    rw [hs2]
    have hchk : (CheckActivation s2 phone).2.1 = false := by
      simp [CheckActivation, hm2, hmap, hin2]
    rw [Activate_of_inactive env2 s2 phone hchk]
    refine ⟨?_, activateNew_constructed env2 s2 phone, ?_, ?_⟩
    · intro hr
      have := activateNew_result env2 s2 phone r hr
      omega
    · cases hq : env2.qrChannelErr with
      | some e =>
        have h2 := activateNew_qr_fails env2 s2 phone e hc hq
        rw [Prod.ext_iff] at h2
        rw [h2.2]; simp
      | none =>
        cases hn : env2.connectErr with
        | some e =>
          have h2 := activateNew_connect_fails env2 s2 phone e hc hq hn
          rw [Prod.ext_iff] at h2
          rw [h2.2]; simp
        | none =>
          rw [activateNew_actions_pairing env2 s2 phone hc hq hn]; simp
    · intro hq hn
      rw [activateNew_actions_pairing env2 s2 phone hc hq hn, hlen]; simp
  · intro hnone
    have hs2 : (pairingTask phone r s [(e1, ⟨"code", code⟩), (e2, ⟨"timeout", payload⟩)]).1
        = s := by
      rw [hcode]
      simp [pairingTask, qrEvent, hnone]
    rw [hs2]
    exact Activate_of_active env2 s phone r hmap hact

/-- Witness of C5 as amended: the phone 628 with stop channel 5 registered. -/
theorem Activate_after_timeout_witness :
    (Activate envPairing watchedState "628").1.UserStatusMap "628" = some 0 ∧
    (Activate envPairing watchedState "628").1.ActiveRoutines "628" = some 5 ∧
    Action.Go "628" (Activate envPairing watchedState "628").1.heap.length ∈
      (Activate envPairingAgain
        (pairingTask "628" 0 (Activate envPairing watchedState "628").1
          [(envStep, ⟨"code", "2@abc"⟩), (envStep, ⟨"timeout", ""⟩)]).1 "628").2.2 :=
  ⟨by decide, by decide,
    ((Activate_after_timeout (Activate envPairing watchedState "628").1 "628" 0 envStep envStep
      "2@abc" "" envPairingAgain (by decide) (by decide) rfl).1 5 (by decide)).2.2.2 rfl rfl⟩

/-! ## C9: the path of the pairing-code image -/

theorem chars_lt_append_left (l a b : List Char) (h : a < b) : l ++ a < l ++ b :=
  List.Lex.append_left _ h l

theorem chars_lt_append_right (a b : List Char) (h : a < b) :
    a.length = b.length → ∀ x y : List Char, a ++ x < b ++ y := by
  induction h with
  | nil => intro hl; simp at hl
  | cons _ ih =>
    intro hl x y
    exact List.Lex.cons (ih (by simpa using hl) x y)
  | rel hlt => intro _ x y; exact List.Lex.rel hlt

theorem nat_cons_lt_cons (a b : Nat) (as bs : List Nat) (h : a :: as < b :: bs) :
    a < b ∨ (a = b ∧ as < bs) := by
  cases h with
  | cons ht => exact Or.inr ⟨rfl, ht⟩
  | rel hlt => exact Or.inl hlt

theorem digitChar_lt (a b : Nat) (h : a < b) (hb : b < 10) :
    Nat.digitChar a < Nat.digitChar b := by
  interval_cases b <;> interval_cases a <;> decide

theorem appendInt_two_length (a : Nat) (ha : a < 100) : (appendInt a 2).length = 2 := by
  simp [appendInt, ha]

theorem appendInt_four_length (a : Nat) (ha : a < 10000) : (appendInt a 4).length = 4 := by
  simp [appendInt, ha]

theorem appendInt_two_lt (a b : Nat) (h : a < b) (hb : b < 100) :
    appendInt a 2 < appendInt b 2 := by
  have ha : a < 100 := by omega
  simp only [appendInt, ha, hb, and_self, if_true]
  by_cases h1 : a / 10 < b / 10
  · exact List.Lex.rel (digitChar_lt _ _ h1 (by omega))
  · have e1 : a / 10 = b / 10 := by omega
    rw [e1]
    exact List.Lex.cons
      (List.Lex.rel (digitChar_lt _ _ (by omega) (by omega)))

theorem appendInt_four_lt (a b : Nat) (h : a < b) (hb : b < 10000) :
    appendInt a 4 < appendInt b 4 := by
  have ha : a < 10000 := by omega
  have h2 : ¬ ((4 : Nat) = 2 ∧ a < 100) := by omega
  have h2b : ¬ ((4 : Nat) = 2 ∧ b < 100) := by omega
  simp only [appendInt, h2, h2b, ha, hb, and_self, if_true, if_false]
  by_cases h1 : a / 1000 < b / 1000
  · exact List.Lex.rel (digitChar_lt _ _ h1 (by omega))
  · have e1 : a / 1000 = b / 1000 := by omega
    rw [e1]
    refine List.Lex.cons ?_
    by_cases h3 : a / 100 % 10 < b / 100 % 10
    · exact List.Lex.rel (digitChar_lt _ _ h3 (by omega))
    · have e3 : a / 100 % 10 = b / 100 % 10 := by omega
      rw [e3]
      refine List.Lex.cons ?_
      by_cases h4 : a / 10 % 10 < b / 10 % 10
      · exact List.Lex.rel (digitChar_lt _ _ h4 (by omega))
      · have e4 : a / 10 % 10 = b / 10 % 10 := by omega
        rw [e4]
        exact List.Lex.cons
          (List.Lex.rel (digitChar_lt _ _ (by omega) (by omega)))

/-- One zero-padded field in front of two texts: the smaller number, or the
same number and the smaller remainder, gives the smaller text. -/
theorem field_lt (a b w : Nat) (x y : List Char)
    (hlen : (appendInt a w).length = (appendInt b w).length)
    (hmono : a < b → appendInt a w < appendInt b w)
    (h : a < b ∨ (a = b ∧ x < y)) : appendInt a w ++ x < appendInt b w ++ y := by
  rcases h with h | ⟨h, hxy⟩
  · exact chars_lt_append_right _ _ (hmono h) hlen x y
  · subst h
    exact chars_lt_append_left _ _ _ hxy

/-- Readings of different seconds, in calendar order, are formatted in
lexicographic order, whatever follows. -/
theorem formatChars_lt (t u : Time) (ht : t.Valid) (hu : u.Valid) (h : t.stamp < u.stamp)
    (x y : List Char) : t.formatChars ++ x < u.formatChars ++ y := by
  obtain ⟨tY, tM1, tM, tD1, tD, tH, tMi, tS⟩ := ht
  obtain ⟨uY, uM1, uM, uD1, uD, uH, uMi, uS⟩ := hu
  have two : ∀ a b : Nat, a < 100 → b < 100 →
      (appendInt a 2).length = (appendInt b 2).length := by
    intro a b ha hb
    rw [appendInt_two_length a ha, appendInt_two_length b hb]
  simp only [Time.formatChars, List.append_assoc]
  unfold Time.stamp at h
  refine field_lt _ _ 4 _ _
    (by rw [appendInt_four_length _ tY, appendInt_four_length _ uY])
    (fun hl => appendInt_four_lt _ _ hl uY) ?_
  rcases nat_cons_lt_cons _ _ _ _ h with h | ⟨e, h⟩
  · exact Or.inl h
  refine Or.inr ⟨e, ?_⟩
  refine field_lt _ _ 2 _ _ (two _ _ (by omega) (by omega))
    (fun hl => appendInt_two_lt _ _ hl (by omega)) ?_
  rcases nat_cons_lt_cons _ _ _ _ h with h | ⟨e, h⟩
  · exact Or.inl h
  refine Or.inr ⟨e, ?_⟩
  refine field_lt _ _ 2 _ _ (two _ _ (by omega) (by omega))
    (fun hl => appendInt_two_lt _ _ hl (by omega)) ?_
  rcases nat_cons_lt_cons _ _ _ _ h with h | ⟨e, h⟩
  · exact Or.inl h
  refine Or.inr ⟨e, ?_⟩
  refine chars_lt_append_left ['-'] _ _ ?_
  refine field_lt _ _ 2 _ _ (two _ _ (by omega) (by omega))
    (fun hl => appendInt_two_lt _ _ hl (by omega)) ?_
  rcases nat_cons_lt_cons _ _ _ _ h with h | ⟨e, h⟩
  · exact Or.inl h
  refine Or.inr ⟨e, ?_⟩
  refine field_lt _ _ 2 _ _ (two _ _ (by omega) (by omega))
    (fun hl => appendInt_two_lt _ _ hl (by omega)) ?_
  rcases nat_cons_lt_cons _ _ _ _ h with h | ⟨e, h⟩
  · exact Or.inl h
  refine Or.inr ⟨e, ?_⟩
  rcases nat_cons_lt_cons _ _ _ _ h with h | ⟨_, h⟩
  · exact chars_lt_append_right _ _ (appendInt_two_lt _ _ h (by omega))
      (two _ _ (by omega) (by omega)) x y
  · cases h

/-- Readings of the same second are formatted alike. -/
theorem formatChars_eq (t u : Time) (h : t.stamp = u.stamp) :
    t.formatChars = u.formatChars := by
  unfold Time.stamp at h
  simp only [List.cons.injEq, and_true] at h
  obtain ⟨hY, hM, hD, hH, hMi, hS⟩ := h
  simp [Time.formatChars, hY, hM, hD, hH, hMi, hS]

/-- The characters of the path. -/
theorem qrPath_data (t : Time) (phone : String) :
    (qrPath t phone).data =
      "public/qr-".data ++ t.formatChars ++ ['-'] ++ phone.data ++ ".png".data := by
  simp [qrPath, Time.Format, String.data_append]

/-- For one phone, the earlier calendar second gives the smaller path. -/
theorem qrPath_lt_of_stamp_lt (phone : String) (t u : Time) (ht : t.Valid) (hu : u.Valid)
    (h : t.stamp < u.stamp) : qrPath t phone < qrPath u phone := by
  rw [String.lt_iff_toList_lt]
  show (qrPath t phone).data < (qrPath u phone).data
  rw [qrPath_data t, qrPath_data u]
  simp only [List.append_assoc]
  exact chars_lt_append_left _ _ _ (formatChars_lt t u ht hu h _ _)

/-- For one phone, the same calendar second gives the same path. -/
theorem qrPath_eq_of_stamp_eq (phone : String) (t u : Time) (h : t.stamp = u.stamp) :
    qrPath t phone = qrPath u phone := by
  simp [qrPath, Time.Format, formatChars_eq t u h]

/-- C9 fails on the code, in two ways. Two emissions half a second apart, the
first before the second, read the same calendar second and get the same path
for the phone 628, so the first path is not smaller than the second. And where
the local clock steps back (Europe/Berlin, 27 October 2024), an emission one
second before another gets the larger path. -/
theorem qrPath_same_second_collides :
    (sampleTime.Valid ∧ sampleTimeLater.Valid ∧ sampleTime.Before sampleTimeLater ∧
      qrPath sampleTime "628" = "public/qr-20240309-070501-628.png" ∧
      qrPath sampleTimeLater "628" = "public/qr-20240309-070501-628.png" ∧
      ¬ (qrPath sampleTime "628" < qrPath sampleTimeLater "628")) ∧
    (beforeFallBack.Valid ∧ afterFallBack.Valid ∧ beforeFallBack.Before afterFallBack ∧
      qrPath beforeFallBack "628" = "public/qr-20241027-025959-628.png" ∧
      qrPath afterFallBack "628" = "public/qr-20241027-020000-628.png" ∧
      qrPath afterFallBack "628" < qrPath beforeFallBack "628" ∧
      ¬ (qrPath beforeFallBack "628" < qrPath afterFallBack "628")) := by
  have h1 : qrPath sampleTime "628" = "public/qr-20240309-070501-628.png" := by decide
  have h2 : qrPath sampleTimeLater "628" = "public/qr-20240309-070501-628.png" := by decide
  have h3 : qrPath afterFallBack "628" < qrPath beforeFallBack "628" :=
    qrPath_lt_of_stamp_lt "628" afterFallBack beforeFallBack (by decide) (by decide)
      (by decide)
  refine ⟨⟨by decide, by decide, by decide, h1, h2, ?_⟩,
    ⟨by decide, by decide, by decide, by decide, by decide, h3, lt_asymm h3⟩⟩
  rw [h1, h2]
  exact lt_irrefl _

/-- C9 as amended. The image of a `code` event is written to
`qrPath now phone`, that is "public/qr-" followed by the 15 characters of the
emission's local calendar reading formatted as YYYYMMDD-HHMMSS, "-", the phone
and ".png". For one phone and two emissions with valid calendar readings and
four-digit years, the paths are ordered exactly as the readings to the second
are: an earlier calendar second gives the strictly smaller path in
lexicographic order, and conversely; the same calendar second gives the same
path, and conversely. -/
theorem qrPath_sortable (phone : String) (t1 t2 : Time) (h1 : t1.Valid) (h2 : t2.Valid) :
    (∀ (env : TaskEnv) (s : State) (status : Nat) (code : String),
      (qrEvent env s phone status ⟨"code", code⟩).2.2.head? =
        some (.WriteFile code (qrPath env.now phone))) ∧
    (qrPath t1 phone).data =
      "public/qr-".data ++ t1.formatChars ++ ['-'] ++ phone.data ++ ".png".data ∧
    t1.formatChars.length = 15 ∧
    (qrPath t1 phone < qrPath t2 phone ↔ t1.stamp < t2.stamp) ∧
    (qrPath t1 phone = qrPath t2 phone ↔ t1.stamp = t2.stamp) := by
  have hlt := qrPath_lt_of_stamp_lt phone t1 t2 h1 h2
  have hgt := qrPath_lt_of_stamp_lt phone t2 t1 h2 h1
  have heq := qrPath_eq_of_stamp_eq phone t1 t2
  refine ⟨?_, qrPath_data t1 phone, ?_, ⟨?_, hlt⟩, ⟨?_, heq⟩⟩
  · intro env s status code
    cases hw : env.writeFileErr <;> simp [qrEvent, hw]
  · obtain ⟨tY, tM1, tM, tD1, tD, tH, tMi, tS⟩ := h1
    simp [Time.formatChars, appendInt_four_length _ tY,
      appendInt_two_length t1.Month (by omega), appendInt_two_length t1.Day (by omega),
      appendInt_two_length t1.Hour (by omega), appendInt_two_length t1.Minute (by omega),
      appendInt_two_length t1.Second (by omega)]
  · intro h
    rcases lt_trichotomy t1.stamp t2.stamp with c | c | c
    · exact c
    · rw [heq c] at h
      exact absurd h (lt_irrefl _)
    · exact absurd h (lt_asymm (hgt c))
  · intro h
    rcases lt_trichotomy t1.stamp t2.stamp with c | c | c
    · have := hlt c
      rw [h] at this
      exact absurd this (lt_irrefl _)
    · exact c
    · have := hgt c
      rw [h] at this
      exact absurd this (lt_irrefl _)

/-- Witness of C9 as amended: the phone 628 and two emissions one second
apart. -/
theorem qrPath_sortable_witness :
    sampleTime.Valid ∧ sampleTimeNext.Valid ∧ sampleTime.stamp < sampleTimeNext.stamp ∧
    qrPath sampleTime "628" < qrPath sampleTimeNext "628" :=
  ⟨by decide, by decide, by decide,
    (qrPath_sortable "628" sampleTime sampleTimeNext (by decide) (by decide)).2.2.2.1.2
      (by decide)⟩

end AdiBot
